import Mathlib

set_option autoImplicit false

/-!
Verification of the phlag-js-client caching and fetch core.

The definitions below are a shallow embedding of the TypeScript sources:

* `src/Client.ts` — the HTTP transport wrapper (`Client#get`,
  `Client#handleErrorResponse`, base-URL normalization in the constructor);
* `src/cache.ts` — the durable cache store (`generateCacheFilename`,
  `loadCacheFromFile`, `writeCacheToFile`, `deleteCacheFile`);
* `src/PhlagClient.ts` — the orchestrating client (`getFlag`, `loadCache`,
  `clearCache`, `withEnvironment`, accessors).

External collaborators (the network, the filesystem clock and contents, the
Node runtime check) are passed in as explicit values; JavaScript-level
semantics that the code relies on (truthiness, `??`, property access on
`null`, `String.prototype.startsWith`) are modelled by small executable
functions named `js...`.
-/

namespace Phlag

/-- JSON values as produced by `JSON.parse`.  Numbers are modelled as integers;
none of the verified code paths inspects fractional values. -/
inductive Json where
  | null
  | bool (b : Bool)
  | num (n : Int)
  | str (s : String)
  | arr (elems : List Json)
  | obj (fields : List (String × Json))

/-- The runtime shape of `FlagCache = Record<string, FlagValue>`: the field
list of a parsed JSON object. -/
abbrev FlagObj := List (String × Json)

/-- First-match association lookup, modelling property access `fields[name]`
on a plain JSON object (absent key gives `none`, i.e. `undefined`). -/
def jsLookup (fields : FlagObj) (name : String) : Option Json :=
  match fields with
  | [] => none
  | (k, v) :: rest => if k = name then some v else jsLookup rest name

/-- Models `fields[name] ?? null`: an absent property (`undefined`) collapses
to `null`; a present property is returned as is (`null ?? null` is `null`). -/
def jsIndexNullish (fields : FlagObj) (name : String) : Json :=
  (jsLookup fields name).getD Json.null

/-- JavaScript truthiness of a JSON value. -/
def jsTruthy : Json → Bool
  | Json.null => false
  | Json.bool b => b
  | Json.num n => decide (n ≠ 0)
  | Json.str s => decide (s ≠ "")
  | Json.arr _ => true
  | Json.obj _ => true

/-- Truthiness of a nullable slot (`none` models the JavaScript `null`). -/
def jsTruthyOpt : Option Json → Bool
  | none => false
  | some j => jsTruthy j

/-- Storing a fetched JSON value into the nullable `flagCache` field: the
JavaScript `null` value and the empty slot are the same runtime value; any
other value occupies the slot. -/
def storeNullable : Json → Option Json
  | Json.null => none
  | Json.bool b => some (Json.bool b)
  | Json.num n => some (Json.num n)
  | Json.str s => some (Json.str s)
  | Json.arr es => some (Json.arr es)
  | Json.obj fs => some (Json.obj fs)

/-- Model of JavaScript `String.prototype.startsWith` (character-level prefix
test; the strings involved are ASCII, where this agrees with code units). -/
def jsStartsWith (s p : String) : Bool :=
  p.data.isPrefixOf s.data

/-- The five typed failure kinds of the exception taxonomy
(`src/exceptions/`).  `phlagError` is the generic base-class failure carrying
the numeric HTTP status. -/
inductive PhlagFailure where
  | authenticationError (message : String)
  | invalidFlagError (message : String)
  | invalidEnvironmentError (message : String)
  | networkError (message : String)
  | phlagError (message : String) (code : Nat)
  deriving Repr, DecidableEq

/-- Anything `getFlag` can throw at runtime: one of the five typed failures,
or an untyped JavaScript `TypeError` (e.g. property access on `null`). -/
inductive RuntimeError where
  | phlag (e : PhlagFailure)
  | typeError (message : String)

/-- Base-URL normalization performed by the `Client` constructor:
`baseUrl.replace(/\/$/, "")` removes one trailing slash if present. -/
def stripTrailingSlash (baseUrl : String) : String :=
  if baseUrl.data.getLast? = some '/' then String.mk baseUrl.data.dropLast else baseUrl

/-- The `fetch` `Response.ok` predicate: status in the range 200–299. -/
def responseOk (status : Nat) : Bool :=
  decide (200 ≤ status) && decide (status ≤ 299)

/-- The decoded body of an HTTP response, at the level `Client#get` inspects
it: empty text, nonempty text that parses as JSON, or nonempty text that
`JSON.parse` rejects. -/
inductive Body where
  | empty
  | wellFormed (j : Json)
  | malformed (raw : String)

/-- The raw text of a body, as used when building the generic error message
(for a well-formed body the serialization is representative). -/
def bodyText : Body → String
  | Body.empty => ""
  | Body.wellFormed _ => "body"
  | Body.malformed raw => raw

/-- The observable outcome of one `fetch` call: a response with a status and
body, an abort raised by the timeout controller, or another network fault. -/
inductive HttpOutcome where
  | response (status : Nat) (body : Body)
  | timeout
  | failure (message : String)

/-- `Client#handleErrorResponse`: maps a non-success status and the requested
endpoint to the thrown failure.  401 is authentication; 404 depends on whether
the endpoint starts with `flag/`; everything else is the generic failure
carrying the status code. -/
def classifyError (statusCode : Nat) (endpoint : String) (text : String) : PhlagFailure :=
  if statusCode = 401 then
    PhlagFailure.authenticationError "Invalid API key"
  else if statusCode = 404 then
    if jsStartsWith endpoint "flag/" then
      PhlagFailure.invalidFlagError ("Flag not found: " ++ endpoint)
    else
      PhlagFailure.invalidEnvironmentError ("Environment not found: " ++ endpoint)
  else
    PhlagFailure.phlagError
      (if text = "" then "HTTP error " ++ toString statusCode
       else "HTTP error " ++ toString statusCode ++ ": " ++ text)
      statusCode

/-- `Client#get`: on a response, non-ok statuses go through
`classifyError`; an ok response returns `null` for an empty body, the parsed
value for parsable text (the `returnObject` branch returns the same parsed
value, so it is observationally irrelevant), and the raw text when parsing
fails.  A timeout abort and other network faults become `networkError`. -/
def clientGet (timeout : Nat) (outcome : HttpOutcome) (endpoint : String)
    (_returnObject : Bool) : Except PhlagFailure Json :=
  match outcome with
  | HttpOutcome.timeout =>
      Except.error (PhlagFailure.networkError
        ("Request timeout after " ++ toString timeout ++ "ms"))
  | HttpOutcome.failure msg =>
      Except.error (PhlagFailure.networkError ("Network error: " ++ msg))
  | HttpOutcome.response status body =>
      if responseOk status then
        match body with
        | Body.empty => Except.ok Json.null
        | Body.wellFormed j => Except.ok j
        | Body.malformed raw => Except.ok (Json.str raw)
      else
        Except.error (classifyError status endpoint (bodyText body))

/-- What a read of the cache file can find: the two failure stages of
`fs.stat` / `fs.readFile`, or actual content with a last-modified time. -/
inductive FileBody where
  | wellFormed (j : Json)
  | malformed (raw : String)

/-- The state of the cache path on disk as seen by one read: absent (`stat`
throws ENOENT), `stat` failing for another reason, readable metadata but
unreadable content, or content with its `mtimeMs`. -/
inductive DiskFile where
  | missing
  | statError
  | unreadable (mtimeMs : Int)
  | content (mtimeMs : Int) (body : FileBody)

/-- The body of `loadCacheFromFile` before its surrounding `try`/`catch`:
`stat`, the expiry check `now - mtime >= cacheTtl * 1000`, `readFile`,
`JSON.parse`, and the plain-object validation, each failing stage modelled as
an `Except.error`. -/
def loadCacheCore (f : DiskFile) (now cacheTtl : Int) : Except String (Option FlagObj) :=
  match f with
  | DiskFile.missing => Except.error "ENOENT"
  | DiskFile.statError => Except.error "stat failed"
  | DiskFile.unreadable mtimeMs =>
      if now - mtimeMs ≥ cacheTtl * 1000 then Except.ok none
      else Except.error "read failed"
  | DiskFile.content mtimeMs body =>
      if now - mtimeMs ≥ cacheTtl * 1000 then Except.ok none
      else
        match body with
        | FileBody.malformed _ => Except.error "JSON.parse failed"
        | FileBody.wellFormed (Json.obj fields) => Except.ok (some fields)
        | FileBody.wellFormed _ => Except.ok none

/-- `loadCacheFromFile`: the `catch` clause turns every raised error into the
cache-miss answer `null`, so the operation is total and never propagates a
failure. -/
def loadCacheFromFile (f : DiskFile) (now cacheTtl : Int) : Option FlagObj :=
  match loadCacheCore f now cacheTtl with
  | Except.ok r => r
  | Except.error _ => none

/-!
MD5, as called through `crypto.createHash("md5").update(input).digest("hex")`
in `generateCacheFilename`.  Words are `Nat`s reduced modulo `2 ^ 32`;
`update` on a JavaScript string uses its UTF-8 encoding.
-/

namespace MD5

/-- The 32-bit modulus. -/
def M32 : Nat := 4294967296

/-- 32-bit wrapping addition. -/
def add32 (a b : Nat) : Nat := (a + b) % M32

/-- 32-bit bitwise complement. -/
def compl32 (x : Nat) : Nat := 4294967295 - x % M32

/-- 32-bit left rotation: the shifted-out high bits re-enter at the bottom,
which for reduced `x` is the sum of two disjoint bit ranges. -/
def rotl32 (x s : Nat) : Nat :=
  (x % M32 * 2 ^ s) % M32 + x % M32 / 2 ^ (32 - s)

/-- The 64 sine-derived round constants of RFC 1321. -/
def K : List Nat :=
  [3614090360, 3905402710, 606105819, 3250441966, 4118548399, 1200080426, 2821735955, 4249261313,
   1770035416, 2336552879, 4294925233, 2304563134, 1804603682, 4254626195, 2792965006, 1236535329,
   4129170786, 3225465664, 643717713, 3921069994, 3593408605, 38016083, 3634488961, 3889429448,
   568446438, 3275163606, 4107603335, 1163531501, 2850285829, 4243563512, 1735328473, 2368359562,
   4294588738, 2272392833, 1839030562, 4259657740, 2763975236, 1272893353, 4139469664, 3200236656,
   681279174, 3936430074, 3572445317, 76029189, 3654602809, 3873151461, 530742520, 3299628645,
   4096336452, 1126891415, 2878612391, 4237533241, 1700485571, 2399980690, 4293915773, 2240044497,
   1873313359, 4264355552, 2734768916, 1309151649, 4149444226, 3174756917, 718787259, 3951481745]

/-- The per-round left-rotation amounts. -/
def S : List Nat :=
  [7, 12, 17, 22, 7, 12, 17, 22, 7, 12, 17, 22, 7, 12, 17, 22,
   5, 9, 14, 20, 5, 9, 14, 20, 5, 9, 14, 20, 5, 9, 14, 20,
   4, 11, 16, 23, 4, 11, 16, 23, 4, 11, 16, 23, 4, 11, 16, 23,
   6, 10, 15, 21, 6, 10, 15, 21, 6, 10, 15, 21, 6, 10, 15, 21]

/-- Little-endian byte decomposition of a value into `count` bytes. -/
def leBytes (count v : Nat) : List Nat :=
  (List.range count).map fun i => v / 2 ^ (8 * i) % 256

/-- Merkle–Damgård padding: `0x80`, zeros to 56 mod 64, then the bit length
as a little-endian 64-bit value. -/
def padMessage (msg : List Nat) : List Nat :=
  let len := msg.length
  msg ++ [128] ++ List.replicate ((119 - len % 64) % 64) 0 ++ leBytes 8 (len * 8 % 2 ^ 64)

/-- Groups a padded block of bytes into little-endian 32-bit words. -/
def toWords : List Nat → List Nat
  | b0 :: b1 :: b2 :: b3 :: rest =>
      (b0 + 256 * (b1 + 256 * (b2 + 256 * b3))) :: toWords rest
  | _ => []

/-- Fuel-indexed chunking of the padded message into 16-word blocks; the fuel
is the byte count, which strictly dominates the number of blocks. -/
def toBlocksAux (fuel : Nat) (bytes : List Nat) : List (List Nat) :=
  match fuel, bytes with
  | 0, _ => []
  | _, [] => []
  | fuel + 1, bs => toWords (bs.take 64) :: toBlocksAux fuel (bs.drop 64)

/-- Splits a padded message into 16-word blocks. -/
def toBlocks (bytes : List Nat) : List (List Nat) :=
  toBlocksAux bytes.length bytes

/-- One of the 64 MD5 rounds applied to the state `(a, b, c, d)`. -/
def md5Step (X : List Nat) (st : Nat × Nat × Nat × Nat) (i : Nat) : Nat × Nat × Nat × Nat :=
  let a := st.1
  let b := st.2.1
  let c := st.2.2.1
  let d := st.2.2.2
  let f :=
    if i < 16 then (b &&& c) ||| (compl32 b &&& d)
    else if i < 32 then (d &&& b) ||| (compl32 d &&& c)
    else if i < 48 then b ^^^ c ^^^ d
    else c ^^^ (b ||| compl32 d)
  let g :=
    if i < 16 then i
    else if i < 32 then (5 * i + 1) % 16
    else if i < 48 then (3 * i + 5) % 16
    else 7 * i % 16
  let rotated := rotl32 (add32 (add32 (add32 a f) (K.getD i 0)) (X.getD g 0)) (S.getD i 0)
  (d, add32 b rotated, b, c)

/-- The MD5 compression function for one block. -/
def processBlock (st : Nat × Nat × Nat × Nat) (X : List Nat) : Nat × Nat × Nat × Nat :=
  let r := (List.range 64).foldl (md5Step X) st
  (add32 st.1 r.1, add32 st.2.1 r.2.1, add32 st.2.2.1 r.2.2.1, add32 st.2.2.2 r.2.2.2)

/-- The MD5 initialization vector. -/
def initState : Nat × Nat × Nat × Nat := (1732584193, 4023233417, 2562383102, 271733878)

/-- The 16-byte MD5 digest of a byte sequence. -/
def digestBytes (msg : List Nat) : List Nat :=
  let st := (toBlocks (padMessage msg)).foldl processBlock initState
  leBytes 4 st.1 ++ leBytes 4 st.2.1 ++ leBytes 4 st.2.2.1 ++ leBytes 4 st.2.2.2

/-- Lowercase hexadecimal digit: code 48 is the digit zero, code 97 the
letter a. -/
def hexDigit (n : Nat) : Char :=
  if n < 10 then Char.ofNat (48 + n) else Char.ofNat (87 + n)

/-- Two-digit lowercase hexadecimal rendering of one byte. -/
def hexByte (n : Nat) : String :=
  String.mk [hexDigit (n / 16), hexDigit (n % 16)]

/-- Lowercase hexadecimal rendering of a byte sequence (`digest("hex")`). -/
def toHex (bytes : List Nat) : String :=
  String.join (bytes.map hexByte)

/-- UTF-8 encoding of a single code point. -/
def utf8Encode (c : Char) : List Nat :=
  let n := c.toNat
  if n < 128 then [n]
  else if n < 2048 then [192 + n / 64, 128 + n % 64]
  else if n < 65536 then [224 + n / 4096, 128 + n / 64 % 64, 128 + n % 64]
  else [240 + n / 262144, 128 + n / 4096 % 64, 128 + n / 64 % 64, 128 + n % 64]

/-- UTF-8 encoding of a string, as `hash.update(string)` performs it. -/
def strBytes (s : String) : List Nat :=
  (s.data.map utf8Encode).flatten

/-- Lowercase hex MD5 digest of a string
(validated against the RFC 1321 test vectors). -/
def md5Hex (s : String) : String :=
  toHex (digestBytes (strBytes s))

end MD5

/-- The string hashed by `generateCacheFilename`, built from the raw,
unnormalized constructor `baseUrl` by the template `` `${baseUrl}|${environment}` ``. -/
def cacheHashInput (baseUrl environment : String) : String :=
  baseUrl ++ "|" ++ environment

/-- `generateCacheFilename`: an explicit (truthy) custom path wins verbatim;
otherwise the file is `phlag_cache_<md5 hex>.json` under the system temp
directory (`os.tmpdir()` is passed in as `tmpdir`).  A supplied empty string
is falsy in JavaScript and falls through to the derived default. -/
def generateCacheFilename (tmpdir : String) (baseUrl environment : String)
    (customPath : Option String) : String :=
  let derived := tmpdir ++ "/phlag_cache_" ++ MD5.md5Hex (cacheHashInput baseUrl environment)
    ++ ".json"
  match customPath with
  | some p => if p = "" then derived else p
  | none => derived

/-- The stage of `writeCacheToFile` at which the filesystem fails, if any:
writing the temporary file, removing the pre-existing final file, writing the
final file, or removing the temporary file afterwards. -/
inductive WritePhase where
  | tempWrite
  | finalUnlink
  | finalWrite
  | tempCleanup
  deriving Repr, DecidableEq

/-- Outcome model of `writeCacheToFile` at the final cache path, with the
side-channel log.  Failures of the two `unlink` calls are swallowed by inner
`try`/`catch` blocks and the protocol continues; failures of either
`writeFile` reach the outer `catch`, which logs
`Phlag: Unable to write cache file: <path>` and returns normally — the
function never raises.  A failed final write leaves the path unlinked (a
crash there can also leave partial bytes; the step-level trace model below
covers that).  `writeTime` is the resulting `mtimeMs`. -/
def writeCacheToFile (cacheFile : String) (failAt : Option WritePhase) (old : DiskFile)
    (data : Json) (writeTime : Int) : DiskFile × List String :=
  match failAt with
  | some WritePhase.tempWrite => (old, ["Phlag: Unable to write cache file: " ++ cacheFile])
  | some WritePhase.finalUnlink => (DiskFile.content writeTime (FileBody.wellFormed data), [])
  | some WritePhase.finalWrite =>
      (DiskFile.missing, ["Phlag: Unable to write cache file: " ++ cacheFile])
  | some WritePhase.tempCleanup => (DiskFile.content writeTime (FileBody.wellFormed data), [])
  | none => (DiskFile.content writeTime (FileBody.wellFormed data), [])

/-- Raw content a concurrent reader (or a post-crash reader) can find at the
final cache path. -/
inductive Obs where
  | absent
  | data (raw : String)
  deriving Repr, DecidableEq

/-- Step-level trace of the observable states of the final cache path during
`writeCacheToFile`, in protocol order: the temporary-file write leaves the
final path with its old state; `unlink(cacheFile)` makes it absent; the
direct (non-atomic) `writeFile(cacheFile, contents)` exposes every prefix of
the new content before completing.  A reader or crash at any point observes
some element of this list. -/
def writeObservations (old : Obs) (contents : String) : List Obs :=
  old :: Obs.absent ::
    ((List.range (contents.length + 1)).map fun k => Obs.data (String.mk (contents.data.take k)))

/-- `deleteCacheFile`: `unlink` with all errors swallowed; when the `unlink`
itself fails the path keeps its previous state. -/
def deleteCacheFile (unlinkFails : Bool) (old : DiskFile) : DiskFile :=
  if unlinkFails then old else DiskFile.missing

/-- The `PhlagClientOptions` bag; optional fields model the `?` members. -/
structure PhlagClientOptions where
  baseUrl : String
  apiKey : String
  environment : String
  timeout : Option Nat
  cache : Option Bool
  cacheFile : Option String
  cacheTtl : Option Int

/-- The per-instance fields of `PhlagClient` after construction.
`clientBaseUrl` is the normalized base URL stored inside the embedded
`Client`; `flagCache` is the mutable in-memory snapshot slot (`none` models
the JavaScript `null`). -/
structure PhlagClient where
  environment : String
  baseUrl : String
  apiKey : String
  timeout : Nat
  cacheEnabled : Bool
  cacheFile : String
  cacheTtl : Int
  useFileCache : Bool
  clientBaseUrl : String
  flagCache : Option Json

/-- The `PhlagClient` constructor.  `tmpdir` and `isNode` stand for the
ambient `os.tmpdir()` and `isNodeEnvironment()` of the running process. -/
def mkPhlagClient (tmpdir : String) (isNode : Bool) (options : PhlagClientOptions) :
    PhlagClient :=
  let cacheEnabled := options.cache.getD false
  { environment := options.environment
    baseUrl := options.baseUrl
    apiKey := options.apiKey
    timeout := options.timeout.getD 10000
    cacheEnabled := cacheEnabled
    cacheFile := generateCacheFilename tmpdir options.baseUrl options.environment
      options.cacheFile
    cacheTtl := options.cacheTtl.getD 300
    useFileCache := cacheEnabled && isNode
    clientBaseUrl := stripTrailingSlash options.baseUrl
    flagCache := none }

/-- `withEnvironment`: builds a fresh instance through the constructor,
passing along the base URL, API key, timeout, cache flag and ttl, the new
environment name, and no custom cache file. -/
def withEnvironment (tmpdir : String) (isNode : Bool) (c : PhlagClient)
    (environment : String) : PhlagClient :=
  mkPhlagClient tmpdir isNode
    { baseUrl := c.baseUrl
      apiKey := c.apiKey
      environment := environment
      timeout := some c.timeout
      cache := some c.cacheEnabled
      cacheFile := none
      cacheTtl := some c.cacheTtl }

/-- The ambient world one `getFlag` call runs in: the cache file's state on
disk, the clock at the cache read, the write-failure behavior of the
filesystem, and what the network returns for whichever request is issued. -/
structure World where
  disk : DiskFile
  now : Int
  writeFail : Option WritePhase
  outcome : HttpOutcome

/-- Everything one `getFlag` call produces: the returned value or raised
error, the instance state afterwards, the final cache path state, how many
Transport requests were issued, and the side-channel log lines. -/
structure StepResult where
  result : Except RuntimeError Json
  client : PhlagClient
  disk : DiskFile
  transportCalls : Nat
  logs : List String

/-- Models `this.flagCache![name] ?? null`: reading a property of the
JavaScript `null` raises a `TypeError`; on a plain object the property (or
`null` for an absent one) is returned; on any other non-null value the
access yields `undefined`, which `?? null` collapses to `null`. -/
def jsIndexAccess (cache : Option Json) (name : String) : Except RuntimeError Json :=
  match cache with
  | none => Except.error (RuntimeError.typeError "Cannot read properties of null")
  | some (Json.obj fields) => Except.ok (jsIndexNullish fields name)
  | some Json.null => Except.error (RuntimeError.typeError "Cannot read properties of null")
  | some _ => Except.ok Json.null

/-- `PhlagClient#loadCache`: consult the durable store when usable; on a miss
fetch the bulk endpoint (one Transport call), store the result in the
`flagCache` slot, and best-effort write the durable record when the slot is
truthy.  Returns the new slot value, the disk state, the Transport call
count, and the write log. -/
def loadCache (w : World) (c : PhlagClient) :
    Except PhlagFailure (Option Json) × DiskFile × Nat × List String :=
  let fileHit := if c.useFileCache then loadCacheFromFile w.disk w.now c.cacheTtl else none
  match fileHit with
  | some fields => (Except.ok (some (Json.obj fields)), w.disk, 0, [])
  | none =>
      match clientGet c.timeout w.outcome ("all-flags/" ++ c.environment) true with
      | Except.error e => (Except.error e, w.disk, 1, [])
      | Except.ok j =>
          let newCache := storeNullable j
          if c.useFileCache && jsTruthyOpt newCache then
            let written := writeCacheToFile c.cacheFile w.writeFail w.disk j w.now
            (Except.ok newCache, written.1, 1, written.2)
          else
            (Except.ok newCache, w.disk, 1, [])

/-- `PhlagClient#getFlag` as a state-machine step.  With caching enabled it
lazily runs `loadCache` when the slot is `null`, then answers with
`this.flagCache![name] ?? null`; with caching disabled it issues one request
to `flag/<environment>/<name>` and propagates the outcome unchanged. -/
def getFlag (w : World) (c : PhlagClient) (name : String) : StepResult :=
  if c.cacheEnabled then
    match c.flagCache with
    | some cache =>
        { result := jsIndexAccess (some cache) name
          client := c
          disk := w.disk
          transportCalls := 0
          logs := [] }
    | none =>
        match loadCache w c with
        | (Except.error e, disk, n, logs) =>
            { result := Except.error (RuntimeError.phlag e)
              client := c
              disk := disk
              transportCalls := n
              logs := logs }
        | (Except.ok newCache, disk, n, logs) =>
            { result := jsIndexAccess newCache name
              client := { c with flagCache := newCache }
              disk := disk
              transportCalls := n
              logs := logs }
  else
    match clientGet c.timeout w.outcome ("flag/" ++ c.environment ++ "/" ++ name) false with
    | Except.error e =>
        { result := Except.error (RuntimeError.phlag e)
          client := c
          disk := w.disk
          transportCalls := 1
          logs := [] }
    | Except.ok v =>
        { result := Except.ok v
          client := c
          disk := w.disk
          transportCalls := 1
          logs := [] }

/-- `PhlagClient#isEnabled`: strict-equality check of the `getFlag` value
against the boolean `true`. -/
def isEnabled (w : World) (c : PhlagClient) (name : String) : Except RuntimeError Bool :=
  match (getFlag w c name).result with
  | Except.error e => Except.error e
  | Except.ok v =>
      Except.ok (match v with
        | Json.bool true => true
        | _ => false)

/-- `PhlagClient#clearCache`: with caching enabled, reset the slot to `null`
and delete the durable record when the durable store is usable; with caching
disabled, a no-op. -/
def clearCache (unlinkFails : Bool) (c : PhlagClient) (disk : DiskFile) :
    PhlagClient × DiskFile :=
  if c.cacheEnabled then
    ({ c with flagCache := none },
     if c.useFileCache then deleteCacheFile unlinkFails disk else disk)
  else
    (c, disk)

/-- `PhlagClient#warmCache`: with caching enabled, unconditionally run
`loadCache` and adopt the result; with caching disabled, a no-op. -/
def warmCache (w : World) (c : PhlagClient) :
    Except PhlagFailure Unit × PhlagClient × DiskFile × Nat :=
  if c.cacheEnabled then
    match loadCache w c with
    | (Except.error e, disk, n, _) => (Except.error e, c, disk, n)
    | (Except.ok newCache, disk, n, _) =>
        (Except.ok (), { c with flagCache := newCache }, disk, n)
  else
    (Except.ok (), c, w.disk, 0)

/-! ### Shared lemmas -/

/-- The bulk endpoint `all-flags/<environment>` never matches the `flag/`
endpoint shape, whatever the environment name. -/
theorem allFlags_not_flag_endpoint (env : String) :
    jsStartsWith ("all-flags/" ++ env) "flag/" = false := by
  show ("flag/".data.isPrefixOf
    ('a' :: 'l' :: 'l' :: '-' :: 'f' :: 'l' :: 'a' :: 'g' :: 's' :: '/' :: env.data)) = false
  simp [List.isPrefixOf]

/-- The cache-hit answer path `this.flagCache![name] ?? null` produces a
value or a `TypeError`, never one of the five typed failures. -/
theorem jsIndexAccess_not_phlag (cache : Option Json) (name : String) (e : PhlagFailure) :
    jsIndexAccess cache name ≠ Except.error (RuntimeError.phlag e) := by
  match cache with
  | none => simp [jsIndexAccess]
  | some j => cases j <;> simp [jsIndexAccess]

/-- Requests to the bulk endpoint can fail in four of the five kinds, but
never with `InvalidFlagError`. -/
theorem clientGet_allFlags_not_invalidFlag (t : Nat) (o : HttpOutcome) (env m : String) :
    clientGet t o ("all-flags/" ++ env) true ≠
      Except.error (PhlagFailure.invalidFlagError m) := by
  match o with
  | HttpOutcome.timeout => simp [clientGet]
  | HttpOutcome.failure msg => simp [clientGet]
  | HttpOutcome.response status body =>
      simp only [clientGet]
      split
      · cases body <;> simp
      · simp only [classifyError, allFlags_not_flag_endpoint]
        split
        · simp
        · split <;> simp

/-! ### Claims -/

/-- C3: a durable record with last-modified time `T` read at `T + ttl` or
later (in milliseconds, `now ≥ mtime + ttl * 1000`) is absent whatever its
content, and read strictly before `T + ttl` with readable well-formed object
content it yields exactly the stored snapshot. -/
theorem loadCacheFromFile_expiry_boundary :
    (∀ (mtime now cacheTtl : Int) (body : FileBody),
        now ≥ mtime + cacheTtl * 1000 →
        loadCacheFromFile (DiskFile.content mtime body) now cacheTtl = none) ∧
    (∀ (mtime now cacheTtl : Int) (fields : FlagObj),
        now < mtime + cacheTtl * 1000 →
        loadCacheFromFile
          (DiskFile.content mtime (FileBody.wellFormed (Json.obj fields))) now cacheTtl =
          some fields) := by
  constructor
  · intro mtime now cacheTtl body h
    have hx : now - mtime ≥ cacheTtl * 1000 := by omega
    simp [loadCacheFromFile, loadCacheCore, hx]
  · intro mtime now cacheTtl fields h
    have hx : ¬ now - mtime ≥ cacheTtl * 1000 := by omega
    simp [loadCacheFromFile, loadCacheCore, hx]

/-- Witness for C3 at ttl 300 s: a record written at time 0 is absent when
read at 300000 ms and valid when read at 299999 ms. -/
theorem loadCacheFromFile_expiry_boundary_witness :
    loadCacheFromFile
      (DiskFile.content 0 (FileBody.wellFormed (Json.obj [("a", Json.bool true)]))) 300000 300 =
      none ∧
    loadCacheFromFile
      (DiskFile.content 0 (FileBody.wellFormed (Json.obj [("a", Json.bool true)]))) 299999 300 =
      some [("a", Json.bool true)] :=
  ⟨loadCacheFromFile_expiry_boundary.1 0 300000 300 _ (by decide),
   loadCacheFromFile_expiry_boundary.2 0 299999 300 _ (by decide)⟩

/-- C4: the durable read fails closed.  Every error raised inside the body is
swallowed into the cache-miss answer, and each of the failure classes —
missing file, failing `stat`, unreadable content, malformed content,
well-formed non-object content (including arrays and `null`), and age at or
beyond the ttl — yields `none` rather than a propagated failure. -/
theorem loadCacheFromFile_never_raises :
    (∀ (f : DiskFile) (now cacheTtl : Int) (e : String),
        loadCacheCore f now cacheTtl = Except.error e →
        loadCacheFromFile f now cacheTtl = none) ∧
    (∀ (f : DiskFile) (now cacheTtl : Int),
        (f = DiskFile.missing ∨ f = DiskFile.statError ∨
          (∃ m, f = DiskFile.unreadable m) ∨
          (∃ m raw, f = DiskFile.content m (FileBody.malformed raw)) ∨
          (∃ m j, f = DiskFile.content m (FileBody.wellFormed j) ∧
            ∀ fields, j ≠ Json.obj fields) ∨
          (∃ m b, f = DiskFile.content m b ∧ now - m ≥ cacheTtl * 1000)) →
        loadCacheFromFile f now cacheTtl = none) := by
  constructor
  · intro f now cacheTtl e h
    simp [loadCacheFromFile, h]
  · intro f now cacheTtl h
    rcases h with h | h | ⟨m, h⟩ | ⟨m, raw, h⟩ | ⟨m, j, h, hj⟩ | ⟨m, b, h, hb⟩
    · simp [h, loadCacheFromFile, loadCacheCore]
    · simp [h, loadCacheFromFile, loadCacheCore]
    · subst h
      by_cases hx : now - m ≥ cacheTtl * 1000 <;>
        simp [loadCacheFromFile, loadCacheCore, hx]
    · subst h
      by_cases hx : now - m ≥ cacheTtl * 1000 <;>
        simp [loadCacheFromFile, loadCacheCore, hx]
    · subst h
      by_cases hx : now - m ≥ cacheTtl * 1000
      · simp [loadCacheFromFile, loadCacheCore, hx]
      · cases j <;> simp_all [loadCacheFromFile, loadCacheCore, hx]
    · subst h
      simp [loadCacheFromFile, loadCacheCore, hb]

/-- Witness for C4: a missing file, an unreadable fresh file, malformed
content, a well-formed array, and an expired record all read as absent. -/
theorem loadCacheFromFile_never_raises_witness :
    loadCacheFromFile DiskFile.missing 0 300 = none ∧
    loadCacheFromFile (DiskFile.unreadable 0) 5 300 = none ∧
    loadCacheFromFile (DiskFile.content 0 (FileBody.malformed "oops")) 5 300 = none ∧
    loadCacheFromFile (DiskFile.content 0 (FileBody.wellFormed (Json.arr []))) 5 300 = none ∧
    loadCacheFromFile (DiskFile.content 0 (FileBody.wellFormed (Json.obj []))) 300000 300 =
      none :=
  ⟨loadCacheFromFile_never_raises.2 _ 0 300 (Or.inl rfl),
   loadCacheFromFile_never_raises.2 _ 5 300 (Or.inr (Or.inr (Or.inl ⟨0, rfl⟩))),
   loadCacheFromFile_never_raises.2 _ 5 300
     (Or.inr (Or.inr (Or.inr (Or.inl ⟨0, "oops", rfl⟩)))),
   loadCacheFromFile_never_raises.2 _ 5 300
     (Or.inr (Or.inr (Or.inr (Or.inr (Or.inl ⟨0, Json.arr [], rfl, by intro fields h; cases h⟩))))),
   loadCacheFromFile_never_raises.2 _ 300000 300
     (Or.inr (Or.inr (Or.inr (Or.inr (Or.inr ⟨0, _, rfl, by decide⟩)))))⟩

/-- C5: the transport maps every non-success outcome to exactly one failure
kind: 401 to `AuthenticationError`; 404 on an endpoint starting with `flag/`
to `InvalidFlagError`; any other 404 to `InvalidEnvironmentError`; any other
non-2xx status to the generic `PhlagError` carrying that status; and a
timeout abort to `NetworkError` instead of hanging. -/
theorem clientGet_error_classification :
    (∀ (t : Nat) (b : Body) (e : String) (ro : Bool),
        clientGet t (HttpOutcome.response 401 b) e ro =
          Except.error (PhlagFailure.authenticationError "Invalid API key")) ∧
    (∀ (t : Nat) (b : Body) (e : String) (ro : Bool),
        jsStartsWith e "flag/" = true →
        clientGet t (HttpOutcome.response 404 b) e ro =
          Except.error (PhlagFailure.invalidFlagError ("Flag not found: " ++ e))) ∧
    (∀ (t : Nat) (b : Body) (e : String) (ro : Bool),
        jsStartsWith e "flag/" = false →
        clientGet t (HttpOutcome.response 404 b) e ro =
          Except.error (PhlagFailure.invalidEnvironmentError ("Environment not found: " ++ e))) ∧
    (∀ (t status : Nat) (b : Body) (e : String) (ro : Bool),
        responseOk status = false → status ≠ 401 → status ≠ 404 →
        ∃ msg, clientGet t (HttpOutcome.response status b) e ro =
          Except.error (PhlagFailure.phlagError msg status)) ∧
    (∀ (t : Nat) (e : String) (ro : Bool),
        clientGet t HttpOutcome.timeout e ro =
          Except.error (PhlagFailure.networkError
            ("Request timeout after " ++ toString t ++ "ms"))) := by
  refine ⟨?_, ?_, ?_, ?_, ?_⟩
  · intro t b e ro
    simp [clientGet, responseOk, classifyError]
  · intro t b e ro h
    simp [clientGet, responseOk, classifyError, h]
  · intro t b e ro h
    simp [clientGet, responseOk, classifyError, h]
  · intro t status b e ro hok h401 h404
    simp only [clientGet, hok, Bool.false_eq_true, if_false, classifyError, h401, h404, if_neg]
    exact ⟨_, rfl⟩
  · intro t e ro
    simp [clientGet]

/-- Witness for C5 at concrete requests: a 401, a 404 on `flag/prod/x`, a
404 on `all-flags/prod`, a 500, and a timeout. -/
theorem clientGet_error_classification_witness :
    clientGet 10000 (HttpOutcome.response 401 Body.empty) "flag/prod/x" false =
      Except.error (PhlagFailure.authenticationError "Invalid API key") ∧
    clientGet 10000 (HttpOutcome.response 404 Body.empty) "flag/prod/x" false =
      Except.error (PhlagFailure.invalidFlagError "Flag not found: flag/prod/x") ∧
    clientGet 10000 (HttpOutcome.response 404 Body.empty) "all-flags/prod" true =
      Except.error (PhlagFailure.invalidEnvironmentError
        "Environment not found: all-flags/prod") ∧
    (∃ msg, clientGet 10000 (HttpOutcome.response 500 Body.empty) "flag/prod/x" false =
      Except.error (PhlagFailure.phlagError msg 500)) ∧
    clientGet 10000 HttpOutcome.timeout "flag/prod/x" false =
      Except.error (PhlagFailure.networkError "Request timeout after 10000ms") :=
  ⟨clientGet_error_classification.1 10000 Body.empty "flag/prod/x" false,
   clientGet_error_classification.2.1 10000 Body.empty "flag/prod/x" false (by decide),
   clientGet_error_classification.2.2.1 10000 Body.empty "all-flags/prod" true (by decide),
   clientGet_error_classification.2.2.2.1 10000 500 Body.empty "flag/prod/x" false
     (by decide) (by decide) (by decide),
   clientGet_error_classification.2.2.2.2 10000 "flag/prod/x" false⟩

/-- C2: with caching enabled, a name absent from the loaded snapshot reads as
`null`, and `getFlag` never raises `InvalidFlagError` in that mode, whatever
the name, state, disk, or network outcome. -/
theorem getFlag_cached_absent_no_invalidFlag :
    (∀ (w : World) (c : PhlagClient) (name : String) (fields : FlagObj),
        c.cacheEnabled = true →
        c.flagCache = some (Json.obj fields) →
        jsLookup fields name = none →
        (getFlag w c name).result = Except.ok Json.null) ∧
    (∀ (w : World) (c : PhlagClient) (name m : String),
        c.cacheEnabled = true →
        (getFlag w c name).result ≠
          Except.error (RuntimeError.phlag (PhlagFailure.invalidFlagError m))) := by
  constructor
  · intro w c name fields hEn hFC hLook
    simp [getFlag, hEn, hFC, jsIndexAccess, jsIndexNullish, hLook]
  · intro w c name m hEn
    cases hFC : c.flagCache with
    | some cache =>
        simpa [getFlag, hEn, hFC] using jsIndexAccess_not_phlag (some cache) name _
    | none =>
        simp only [getFlag, hEn, if_true, hFC, loadCache]
        cases hFH : (if c.useFileCache = true then
            loadCacheFromFile w.disk w.now c.cacheTtl else none) with
        | some fields =>
            simp only [hFH]
            exact jsIndexAccess_not_phlag _ name _
        | none =>
            cases hG : clientGet c.timeout w.outcome ("all-flags/" ++ c.environment) true with
            | error e =>
                simp only [hFH, hG]
                intro hEq
                simp only [Except.error.injEq, RuntimeError.phlag.injEq] at hEq
                exact clientGet_allFlags_not_invalidFlag c.timeout w.outcome c.environment m
                  (hEq ▸ hG)
            | ok j =>
                by_cases hW : (c.useFileCache && jsTruthyOpt (storeNullable j)) = true <;>
                  · simp only [hFH, hG, hW, Bool.false_eq_true, if_true, if_false]
                    exact jsIndexAccess_not_phlag _ name _

/-- Sample world whose network request would time out (never reached in the
witnesses that use it). -/
def wTimeout : World :=
  { disk := DiskFile.missing, now := 0, writeFail := none, outcome := HttpOutcome.timeout }

/-- Sample cache-enabled, memory-only client in the empty state. -/
def emptySample : PhlagClient :=
  { environment := "production", baseUrl := "http://x", apiKey := "k", timeout := 10000,
    cacheEnabled := true, cacheFile := "/tmp/c.json", cacheTtl := 300,
    useFileCache := false, clientBaseUrl := "http://x", flagCache := none }

/-- Sample cache-enabled client whose loaded snapshot maps `a` to `true`. -/
def loadedSample : PhlagClient :=
  { emptySample with flagCache := some (Json.obj [("a", Json.bool true)]) }

/-- Sample cache-enabled client that also uses the durable file cache. -/
def fileSample : PhlagClient :=
  { emptySample with useFileCache := true }

/-- Witness for C2: a loaded snapshot without the key `b` answers `null` for
`b`, and the same call is not an `InvalidFlagError`. -/
theorem getFlag_cached_absent_no_invalidFlag_witness :
    (getFlag wTimeout loadedSample "b").result = Except.ok Json.null ∧
    (getFlag wTimeout loadedSample "b").result ≠
      Except.error (RuntimeError.phlag (PhlagFailure.invalidFlagError "m")) := by
  refine ⟨?_, ?_⟩
  · exact getFlag_cached_absent_no_invalidFlag.1 wTimeout loadedSample "b"
      [("a", Json.bool true)] rfl rfl rfl
  · exact getFlag_cached_absent_no_invalidFlag.2 wTimeout loadedSample "b" "m" rfl

/-- C7: with caching enabled and the snapshot loaded, `getFlag` answers from
memory — the whole step result is the memory lookup with the instance,
disk, and log untouched and zero Transport calls — and only `clearCache`
resets the state to empty. -/
theorem getFlag_loaded_terminal :
    (∀ (w : World) (c : PhlagClient) (name : String) (cache : Json),
        c.cacheEnabled = true →
        c.flagCache = some cache →
        getFlag w c name =
          { result := jsIndexAccess (some cache) name
            client := c
            disk := w.disk
            transportCalls := 0
            logs := [] }) ∧
    (∀ (unlinkFails : Bool) (c : PhlagClient) (disk : DiskFile),
        c.cacheEnabled = true →
        (clearCache unlinkFails c disk).1.flagCache = none) := by
  constructor
  · intro w c name cache hEn hFC
    simp [getFlag, hEn, hFC]
  · intro u c disk hEn
    simp [clearCache, hEn]

/-- Witness for C7: a loaded client serves `a` from memory with zero calls
and an unchanged state, and clearing resets the slot. -/
theorem getFlag_loaded_terminal_witness :
    getFlag wTimeout loadedSample "a" =
      { result := Except.ok (Json.bool true)
        client := loadedSample
        disk := DiskFile.missing
        transportCalls := 0
        logs := [] } ∧
    (clearCache false loadedSample DiskFile.missing).1.flagCache = none := by
  refine ⟨?_, ?_⟩
  · exact getFlag_loaded_terminal.1 wTimeout loadedSample "a"
      (Json.obj [("a", Json.bool true)]) rfl rfl
  · exact getFlag_loaded_terminal.2 false loadedSample DiskFile.missing rfl

/-- C9: when the bulk fetch of a cache-enabled load decodes to `null` (an
empty response body does), the non-null assertion in `getFlag` dereferences
`null`: the call raises a `TypeError` that is none of the five typed failure
kinds, the state stays empty (so the next call re-runs the Load algorithm),
and exactly one Transport call was made. -/
theorem getFlag_null_bulk_typeError :
    ∀ (w : World) (c : PhlagClient) (name : String),
      c.cacheEnabled = true →
      c.flagCache = none →
      (c.useFileCache = false ∨ loadCacheFromFile w.disk w.now c.cacheTtl = none) →
      clientGet c.timeout w.outcome ("all-flags/" ++ c.environment) true =
        Except.ok Json.null →
      (∃ msg, (getFlag w c name).result = Except.error (RuntimeError.typeError msg)) ∧
      (∀ e, (getFlag w c name).result ≠ Except.error (RuntimeError.phlag e)) ∧
      (getFlag w c name).client.flagCache = none ∧
      (getFlag w c name).transportCalls = 1 := by
  intro w c name hEn hFC hMiss hBulk
  have hFH : (if c.useFileCache = true then
      loadCacheFromFile w.disk w.now c.cacheTtl else none) = none := by
    rcases hMiss with h | h <;> simp [h]
  refine ⟨⟨"Cannot read properties of null", ?_⟩, ?_, ?_, ?_⟩
  · simp [getFlag, hEn, hFC, loadCache, hFH, hBulk, storeNullable, jsTruthyOpt,
      jsIndexAccess]
  · intro e
    simp [getFlag, hEn, hFC, loadCache, hFH, hBulk, storeNullable, jsTruthyOpt,
      jsIndexAccess]
  · simp [getFlag, hEn, hFC, loadCache, hFH, hBulk, storeNullable, jsTruthyOpt]
  · simp [getFlag, hEn, hFC, loadCache, hFH, hBulk, storeNullable, jsTruthyOpt]

/-- Witness for C9: an empty bulk body yields a `TypeError`, no typed
failure, an unchanged empty state, and one Transport call. -/
theorem getFlag_null_bulk_typeError_witness :
    (∃ msg,
      (getFlag { wTimeout with outcome := HttpOutcome.response 200 Body.empty }
          emptySample "a").result = Except.error (RuntimeError.typeError msg)) ∧
    (getFlag { wTimeout with outcome := HttpOutcome.response 200 Body.empty }
        emptySample "a").client.flagCache = none ∧
    (getFlag { wTimeout with outcome := HttpOutcome.response 200 Body.empty }
        emptySample "a").transportCalls = 1 := by
  have h := getFlag_null_bulk_typeError
    { wTimeout with outcome := HttpOutcome.response 200 Body.empty }
    emptySample "a" rfl rfl (Or.inl rfl) rfl
  exact ⟨h.1, h.2.2.1, h.2.2.2⟩

/-- C6: with caching enabled and a successful bulk fetch, the durable write
may fail at any stage (the failure point is part of the world, universally
quantified): `getFlag` still returns the looked-up value from the fresh
in-memory snapshot, the snapshot is adopted, no exception surfaces, and a
failing final write is reported only through the side-channel log. -/
theorem getFlag_write_failure_swallowed :
    ∀ (w : World) (c : PhlagClient) (name : String) (fields : FlagObj),
      c.cacheEnabled = true →
      c.flagCache = none →
      (c.useFileCache = false ∨ loadCacheFromFile w.disk w.now c.cacheTtl = none) →
      clientGet c.timeout w.outcome ("all-flags/" ++ c.environment) true =
        Except.ok (Json.obj fields) →
      (getFlag w c name).result = Except.ok (jsIndexNullish fields name) ∧
      (getFlag w c name).client.flagCache = some (Json.obj fields) ∧
      (c.useFileCache = true → w.writeFail = some WritePhase.finalWrite →
        (getFlag w c name).logs =
          ["Phlag: Unable to write cache file: " ++ c.cacheFile]) := by
  intro w c name fields hEn hFC hMiss hBulk
  have hFH : (if c.useFileCache = true then
      loadCacheFromFile w.disk w.now c.cacheTtl else none) = none := by
    rcases hMiss with h | h <;> simp [h]
  by_cases hUfc : c.useFileCache = true
  · have hMiss2 : loadCacheFromFile w.disk w.now c.cacheTtl = none := by
      simpa [hUfc] using hFH
    refine ⟨?_, ?_, ?_⟩
    · simp [getFlag, hEn, hFC, loadCache, hMiss2, hBulk, storeNullable, jsTruthyOpt,
        jsTruthy, hUfc, jsIndexAccess]
    · simp [getFlag, hEn, hFC, loadCache, hMiss2, hBulk, storeNullable, jsTruthyOpt,
        jsTruthy, hUfc]
    · intro _ hWf
      simp [getFlag, hEn, hFC, loadCache, hMiss2, hBulk, storeNullable, jsTruthyOpt,
        jsTruthy, hUfc, hWf, writeCacheToFile]
  · refine ⟨?_, ?_, ?_⟩
    · simp [getFlag, hEn, hFC, loadCache, hFH, hBulk, storeNullable, jsTruthyOpt,
        jsTruthy, hUfc, jsIndexAccess]
    · simp [getFlag, hEn, hFC, loadCache, hFH, hBulk, storeNullable, jsTruthyOpt,
        jsTruthy, hUfc]
    · intro h
      exact absurd h hUfc

/-- Witness for C6: a read-only cache location (final write fails) still
yields the fetched value `true` for `a`, an adopted snapshot, and the
failure only in the log line. -/
theorem getFlag_write_failure_swallowed_witness :
    (getFlag
        { disk := DiskFile.missing, now := 0, writeFail := some WritePhase.finalWrite,
          outcome := HttpOutcome.response 200
            (Body.wellFormed (Json.obj [("a", Json.bool true)])) }
        fileSample "a").result = Except.ok (Json.bool true) ∧
    (getFlag
        { disk := DiskFile.missing, now := 0, writeFail := some WritePhase.finalWrite,
          outcome := HttpOutcome.response 200
            (Body.wellFormed (Json.obj [("a", Json.bool true)])) }
        fileSample "a").logs = ["Phlag: Unable to write cache file: /tmp/c.json"] := by
  have h := getFlag_write_failure_swallowed
    { disk := DiskFile.missing, now := 0, writeFail := some WritePhase.finalWrite,
      outcome := HttpOutcome.response 200
        (Body.wellFormed (Json.obj [("a", Json.bool true)])) }
    fileSample "a" [("a", Json.bool true)] rfl rfl (Or.inr rfl) rfl
  exact ⟨h.1, h.2.2 rfl rfl⟩

/-- C1 (against the code): the write protocol replaces the cache file with
`unlink` followed by a direct `writeFile` instead of the rename its own doc
comment describes, so with old content `\x7b"a":true\x7d` being replaced by
`\x7b"b":5\x7d`, a concurrent reader (or a reader after a crash) can observe
the path absent, and can observe the torn prefix `\x7b"b"` — a state that is
neither the old nor the new complete content. -/
theorem writeObservations_torn :
    Obs.absent ∈ writeObservations (Obs.data "\x7b\"a\":true\x7d") "\x7b\"b\":5\x7d" ∧
    Obs.data "\x7b\"b\"" ∈ writeObservations (Obs.data "\x7b\"a\":true\x7d") "\x7b\"b\":5\x7d" ∧
    Obs.data "\x7b\"b\"" ≠ Obs.data "\x7b\"a\":true\x7d" ∧
    Obs.data "\x7b\"b\"" ≠ Obs.data "\x7b\"b\":5\x7d" := by
  decide

/-- Running `getFlag` on the second component of a pair of coexisting
instances.  In the source each instance owns its private `flagCache` and the
constructor builds a fresh one, so a method call on one instance is a
function of that instance alone; the pair form makes the frame explicit. -/
def pairStepGetFlag (w : World) (name : String) (p : PhlagClient × PhlagClient) :
    PhlagClient × PhlagClient :=
  (p.1, (getFlag w p.2 name).client)

/-- Running `clearCache` on the second component of a pair of coexisting
instances. -/
def pairStepClear (unlinkFails : Bool) (disk : DiskFile) (p : PhlagClient × PhlagClient) :
    PhlagClient × PhlagClient :=
  (p.1, (clearCache unlinkFails p.2 disk).1)

/-- C8: `withEnvironment` derives a new instance sharing the base URL, API
key, timeout, cache flag and ttl, with a fresh empty in-memory state and a
cache location derived for the new environment, and neither the derivation
nor subsequent `getFlag`/`clearCache` calls on the new instance change any
field of the original. -/
theorem withEnvironment_pure_derivation :
    ∀ (tmpdir : String) (isNode : Bool) (c : PhlagClient) (e : String),
      (withEnvironment tmpdir isNode c e).baseUrl = c.baseUrl ∧
      (withEnvironment tmpdir isNode c e).apiKey = c.apiKey ∧
      (withEnvironment tmpdir isNode c e).timeout = c.timeout ∧
      (withEnvironment tmpdir isNode c e).cacheEnabled = c.cacheEnabled ∧
      (withEnvironment tmpdir isNode c e).cacheTtl = c.cacheTtl ∧
      (withEnvironment tmpdir isNode c e).environment = e ∧
      (withEnvironment tmpdir isNode c e).flagCache = none ∧
      (withEnvironment tmpdir isNode c e).cacheFile =
        generateCacheFilename tmpdir c.baseUrl e none ∧
      (∀ (w : World) (name : String),
        (pairStepGetFlag w name (c, withEnvironment tmpdir isNode c e)).1 = c) ∧
      (∀ (unlinkFails : Bool) (disk : DiskFile),
        (pairStepClear unlinkFails disk (c, withEnvironment tmpdir isNode c e)).1 = c) :=
  fun _ _ _ _ =>
    ⟨rfl, rfl, rfl, rfl, rfl, rfl, rfl, rfl, fun _ _ => rfl, fun _ _ => rfl⟩

/-- C10 counterexample: sharing a cache file does not require
character-identical (server, environment) pairs — the hash input joins the
two with `|`, so the distinct pairs `("s|a", "b")` and `("s", "a|b")` hash
the identical string and derive the same default cache location. -/
theorem generateCacheFilename_separator_collision :
    generateCacheFilename "/tmp" "s|a" "b" none = generateCacheFilename "/tmp" "s" "a|b" none ∧
    ("s|a", "b") ≠ (("s", "a|b") : String × String) := by
  refine ⟨rfl, by decide⟩

set_option maxRecDepth 40000 in
/-- C10 (amended): the default cache location hashes the raw, unnormalized
base URL: for every environment the hash inputs of `http://x` and
`http://x/` differ, the `Client` normalization maps both base URLs to the
identical server address, and for the environment `production` the two
derived locations are distinct (computed through the embedded MD5). -/
theorem cacheFilename_hashes_raw_baseUrl :
    (∀ e : String, cacheHashInput "http://x" e ≠ cacheHashInput "http://x/" e) ∧
    stripTrailingSlash "http://x" = stripTrailingSlash "http://x/" ∧
    generateCacheFilename "/tmp" "http://x" "production" none ≠
      generateCacheFilename "/tmp" "http://x/" "production" none := by
  refine ⟨?_, by decide, by decide⟩
  intro e h
  have hlen := congrArg String.length h
  rw [cacheHashInput, cacheHashInput, String.length_append, String.length_append,
    String.length_append, String.length_append,
    show ("http://x" : String).length = 8 from rfl,
    show ("http://x/" : String).length = 9 from rfl] at hlen
  omega

/-- Witness for C10 (amended) at the environment `production`: the two hash
inputs differ. -/
theorem cacheFilename_hashes_raw_baseUrl_witness :
    cacheHashInput "http://x" "production" ≠ cacheHashInput "http://x/" "production" :=
  cacheFilename_hashes_raw_baseUrl.1 "production"

end Phlag
